import Mathlib

/-!
Shallow embedding of `src/skills/session-health/scripts/check_sessions.py`
(the session-health checker of panopticon-cli) and proofs about it.

Modelling conventions:
- A session file's on-disk content is a list of `Line`s.  `json.loads`
  applied to one line either raises `JSONDecodeError` (`Line.malformed`),
  succeeds with a non-dict value — in which case the subsequent
  `msg.get(...)` raises `AttributeError`, caught only by the outer
  `except Exception` (`Line.nonObject`, carrying the rendered exception
  text) — or succeeds with a dict (`Line.record`).
- Optional dict fields whose value the script only compares against a
  string literal are modelled as `Option String` (`none` covers both an
  absent field and a present field of a non-string type: both compare
  unequal to the literal).  The `is_error` field is consumed by Python
  truthiness, so it is modelled as a `PyVal` with an explicit `truthy`.
- File sizes are byte counts (`Nat`); `size_kb = st_size / 1024` is Python
  float division, which is exact for any realistic size, so it is modelled
  as exact division in `ℚ`.
- `sys.exit(n)` is modelled by recording `n` (with `None ↦ 0`); an uncaught
  Python exception is modelled by `Except.error` with the rendered message.
- The only filesystem mutation in the script is `os.remove` during
  cleanup; a run's mutations are modelled as the list of paths on which
  `os.remove` is invoked.
-/

set_option maxRecDepth 8000

deriving instance DecidableEq for Except

namespace SessionHealth

/-- A Python value, as far as the script's truthiness tests observe it. -/
inductive PyVal where
  | none
  | bool (b : Bool)
  | int (n : Int)
  | str (s : String)
deriving DecidableEq

/-- Python truthiness: `None` and `False` are falsy, numbers are truthy iff
nonzero, strings are truthy iff non-empty. -/
def PyVal.truthy : PyVal → Bool
  | .none => false
  | .bool b => b
  | .int n => n != 0
  | .str s => s != ""

/-- The `input` field of a content item: absent (`item.get("input", {})`
yields `{}`), present but not a dict (fails the `isinstance(tool_input, dict)`
check), or a dict with an optional `command` entry. -/
inductive InputField where
  | absent
  | nonDict
  | dict (command : Option String)
deriving DecidableEq

/-- A content item that is a dict.  `content`, `type` and `name` are read
with `.get` and only ever compared to (or used as) strings. -/
structure Item where
  content : Option String
  is_error : PyVal
  itype : Option String
  name : Option String
  input : InputField
deriving DecidableEq

/-- An element of a `message.content` list: non-dict elements fail the
`isinstance(item, dict)` check and are skipped. -/
inductive ContentItem where
  | nonDict
  | item (i : Item)
deriving DecidableEq

/-- The `content` field of a `message` dict: absent (`.get("content", [])`
yields `[]`), present but not a list (fails `isinstance(content, list)`),
or a list of content items. -/
inductive ContentField where
  | absent
  | nonList
  | list (items : List ContentItem)
deriving DecidableEq

/-- The `message` field of a record: absent (`msg.get("message", {})` yields
`{}`, whose `.get("content", [])` yields `[]`), present but not a dict — in
which case `.get("content", [])` raises `AttributeError` (the carried string
is the rendered exception) — or a dict. -/
inductive MessageField where
  | absent
  | wrongTyped (excMsg : String)
  | dict (content : ContentField)
deriving DecidableEq

/-- One decoded JSON-object line.  `rtype` is `msg.get("type")`,
`isSidechain` is the truthiness of `msg.get("isSidechain")`. -/
structure Record where
  rtype : Option String
  isSidechain : Bool
  message : MessageField
deriving DecidableEq

/-- One raw line of a session file, classified by how `json.loads` and the
subsequent attribute accesses behave on it. -/
inductive Line where
  | malformed
  | nonObject (excMsg : String)
  | record (r : Record)
deriving DecidableEq

/-- The per-file statistics dict built by `analyze_session`.  `tool_calls`
models the `Counter` as an insertion-ordered association list. -/
structure Stats where
  path : String
  name : String
  size_kb : ℚ
  message_count : Nat
  warmup_errors : Nat
  tool_calls : List (String × Nat)
  is_sidechain : Bool
  issues : List String
deriving DecidableEq

/-- Python `Counter[k] += 1`: bump the first entry with key `k`, else append
a new entry at the end (Python dicts preserve insertion order). -/
def incr (tc : List (String × Nat)) (k : String) : List (String × Nat) :=
  match tc with
  | [] => [(k, 1)]
  | (n, c) :: rest => if n = k then (n, c + 1) :: rest else (n, c) :: incr rest k

/-- Python `Counter[k]`: the count of key `k` (0 when absent). -/
def cnt (tc : List (String × Nat)) (k : String) : Nat :=
  match tc with
  | [] => 0
  | (n, c) :: rest => if n = k then c else cnt rest k

/-- The list of items the script iterates for a `message.content` field:
absent and non-list content both yield no items. -/
def itemsOf : ContentField → List ContentItem
  | .absent => []
  | .nonList => []
  | .list items => items

/-- Line 54: `item.get("content") == "Warmup" and item.get("is_error")`. -/
def isWarmupItem (i : Item) : Bool :=
  i.content == some "Warmup" && i.is_error.truthy

/-- Number of warmup-error items among the content items of one record. -/
def warmupCount (items : List ContentItem) : Nat :=
  items.countP fun ci =>
    match ci with
    | .nonDict => false
    | .item i => isWarmupItem i

/-- Lines 63-65: the Counter key for a `tool_use` item, or `none` when the
item is skipped because its `input` is present but not a dict. -/
def toolKey (i : Item) : Option String :=
  match i.input with
  | .nonDict => none
  | .absent => some (i.name.getD "unknown")
  | .dict command => some (command.getD (i.name.getD "unknown"))

/-- Lines 61-66: fold the tool-call counting over one record's items. -/
def countTools (tc : List (String × Nat)) : List ContentItem → List (String × Nat)
  | [] => tc
  | .nonDict :: rest => countTools tc rest
  | .item i :: rest =>
    if i.itype == some "tool_use" then
      match toolKey i with
      | some k => countTools (incr tc k) rest
      | none => countTools tc rest
    else countTools tc rest

/-- Lines 44-66: process one decoded record.  Returns the updated stats and
`some excMsg` when an `AttributeError` escapes to the outer handler (a
wrong-typed `message` field in a user/assistant record). -/
def processRecord (st : Stats) (r : Record) : Stats × Option String :=
  let st := if r.isSidechain then { st with is_sidechain := true } else st
  if r.rtype = some "user" then
    match r.message with
    | .wrongTyped e => (st, some e)
    | .absent => (st, Option.none)
    | .dict c => ({ st with warmup_errors := st.warmup_errors + warmupCount (itemsOf c) }, Option.none)
  else if r.rtype = some "assistant" then
    match r.message with
    | .wrongTyped e => (st, some e)
    | .absent => (st, Option.none)
    | .dict c => ({ st with tool_calls := countTools st.tool_calls (itemsOf c) }, Option.none)
  else (st, Option.none)

/-- Lines 39-69: the per-line loop.  The counter is incremented before the
parse attempt; `JSONDecodeError` is caught by the inner handler and the
loop continues; any other exception stops the loop and is reported by the
caller (`some excMsg`). -/
def processLines (st : Stats) : List Line → Stats × Option String
  | [] => (st, Option.none)
  | l :: ls =>
    let st1 := { st with message_count := st.message_count + 1 }
    match l with
    | .malformed => processLines st1 ls
    | .nonObject e => (st1, some e)
    | .record r =>
      match processRecord st1 r with
      | (st2, some e) => (st2, some e)
      | (st2, Option.none) => processLines st2 ls

/-- Stable descending insertion by count: an inserted element goes before
every element of strictly smaller count and after earlier elements of equal
count, matching `heapq.nlargest`'s tie behaviour (insertion order). -/
def insertDesc (x : String × Nat) : List (String × Nat) → List (String × Nat)
  | [] => [x]
  | y :: ys => if x.2 < y.2 then y :: insertDesc x ys else x :: y :: ys

/-- Stable sort by count, descending (ties keep first-encountered order). -/
def sortDesc : List (String × Nat) → List (String × Nat)
  | [] => []
  | x :: xs => insertDesc x (sortDesc xs)

/-- Python `Counter.most_common(n)`: the n largest entries by count, ties
broken by insertion order (it is documented as equivalent to a stable sort
descending by count followed by a take). -/
def mostCommon (n : Nat) (tc : List (String × Nat)) : List (String × Nat) :=
  (sortDesc tc).take n

/-- Round half to even, as Python's `"{:.0f}".format` does.  The fractional
part `q - ⌊q⌋ = (q.num - ⌊q⌋ * q.den) / q.den` is compared against `1/2` by
comparing `2 * (q.num - ⌊q⌋ * q.den)` against `q.den` (integer arithmetic,
valid since `q.den > 0`). -/
def pyRoundHalfEven (q : ℚ) : ℤ :=
  let f := q.floor
  let r2 := 2 * (q.num - f * (q.den : ℤ))
  if r2 < (q.den : ℤ) then f
  else if (q.den : ℤ) < r2 then f + 1
  else if f % 2 = 0 then f else f + 1

/-- Python `f"{size_kb:.0f}"`. -/
def fmtSize (q : ℚ) : String := toString (pyRoundHalfEven q)

/-- Line 29: `jsonl_path.stat().st_size / 1024`, Python float division.  It
is exact for every realistic size, so it is modelled as the exact rational
`bytes / 1024` (written with `Rat.divInt`, which the kernel evaluates). -/
def sizeKB (bytes : Nat) : ℚ := Rat.divInt (bytes : ℤ) 1024

/-- Line 77's message. -/
def warmupLoopIssue (n : Nat) : String :=
  "CRITICAL: Warmup loop detected (" ++ toString n ++ " warmup errors)"

/-- Line 80's message. -/
def excessiveMessagesIssue (n : Nat) : String :=
  "WARNING: Excessive messages (" ++ toString n ++ ")"

/-- Line 85's message (`cmd[:50]` truncates the name to 50 characters). -/
def commandRepeatedIssue (count : Nat) (cmd : String) : String :=
  "WARNING: Command repeated " ++ toString count ++ "x: " ++ cmd.take 50 ++ "..."

/-- Line 88's message. -/
def largeFileIssue (size_kb : ℚ) : String :=
  "WARNING: Large session file (" ++ fmtSize size_kb ++ "KB)"

/-- Lines 76-77: warmup-loop rule. -/
def warmupIssues (s : Stats) : List String :=
  if s.warmup_errors > 10 then [warmupLoopIssue s.warmup_errors] else []

/-- Lines 79-80: excessive-messages rule. -/
def messageIssues (s : Stats) : List String :=
  if s.message_count > 500 then [excessiveMessagesIssue s.message_count] else []

/-- Lines 83-85: repeated-command rule over `most_common(5)`. -/
def commandIssues (s : Stats) : List String :=
  (mostCommon 5 s.tool_calls).filterMap fun e =>
    if e.2 > 50 then some (commandRepeatedIssue e.2 e.1) else Option.none

/-- Lines 87-88: large-file rule. -/
def sizeIssues (s : Stats) : List String :=
  if s.size_kb > 2000 then [largeFileIssue s.size_kb] else []

/-- Lines 75-88: all classifier rules, in source order. -/
def detectIssues (s : Stats) : List String :=
  warmupIssues s ++ messageIssues s ++ commandIssues s ++ sizeIssues s

/-- One discovered session file, with the outcomes of the filesystem calls
`analyze_session` makes on it: `statRes` is `jsonl_path.stat().st_size`
(`Except.error` when `stat` raises, e.g. the file disappeared after
discovery) and `readRes` is opening and reading the lines (`Except.error`
when `open` raises, e.g. permission denied). -/
structure SessionFile where
  path : String
  name : String
  statRes : Except String Nat
  readRes : Except String (List Line)

/-- Lines 23-90: analyze one session file.  The `stat` call on line 29 sits
outside the `try`, so its failure propagates as an uncaught exception
(`Except.error`).  A failure to open the file is caught: the stats keep
their zero counts and get a single read-error issue, and the classifier is
not run.  An exception escaping the per-line loop likewise appends a
read-error issue to the partially built stats without running the
classifier. -/
def analyze_session (f : SessionFile) : Except String Stats :=
  match f.statRes with
  | .error e => .error e
  | .ok size =>
    let init : Stats :=
      { path := f.path, name := f.name, size_kb := sizeKB size,
        message_count := 0, warmup_errors := 0, tool_calls := [],
        is_sidechain := false, issues := [] }
    match f.readRes with
    | .error e => .ok { init with issues := init.issues ++ ["Error reading file: " ++ e] }
    | .ok lines =>
      match processLines init lines with
      | (st, some e) => .ok { st with issues := st.issues ++ ["Error reading file: " ++ e] }
      | (st, Option.none) => .ok { st with issues := st.issues ++ detectIssues st }

/-- Python's substring test `sub in s` (for the fixed needle "CRITICAL"). -/
def pyIn (sub s : String) : Bool :=
  s.toList.tails.any fun t => sub.toList.isPrefixOf t

/-- Line 153: a problematic file is selected for deletion iff some issue
string contains `"CRITICAL"` as a substring. -/
def shouldDelete (s : Stats) : Bool :=
  s.issues.any fun i => pyIn "CRITICAL" i

/-- The outcome of one completed run: the per-file stats in scan order, the
value passed to `sys.exit` (`None ↦ 0`), and the paths passed to
`os.remove` during cleanup. -/
structure RunResult where
  results : List Stats
  exitCode : Nat
  deleted : List String
deriving DecidableEq

/-- Lines 101-166: the whole run.  A nonexistent root path exits 1 before
any scanning.  Each discovered file is analyzed in order; an uncaught
exception (failed `stat`) aborts the run (`Except.error`).  In `--json`
mode the function prints and returns `None` (exit 0) before the summary and
before cleanup, so `--json` suppresses both the informational exit status
and `--fix`.  Otherwise cleanup (when `--fix` is given) calls `os.remove`
on every problematic file some of whose issues contain `"CRITICAL"`, and
the exit status is the number of problematic files. -/
def main (pathExists fix jsonMode : Bool) (files : List SessionFile) : Except String RunResult :=
  if !pathExists then .ok { results := [], exitCode := 1, deleted := [] }
  else
    match files.mapM analyze_session with
    | .error e => .error e
    | .ok results =>
      let problematic := results.filter fun s => !s.issues.isEmpty
      if jsonMode then .ok { results := results, exitCode := 0, deleted := [] }
      else
        let deleted := if fix then (problematic.filter shouldDelete).map Stats.path else []
        .ok { results := results, exitCode := problematic.length, deleted := deleted }

/-! Derived per-record and per-line contribution functions, used to state
the counting invariants, and proved consistent with `processRecord` and
`processLines` below. -/

/-- How many warmup-error items one record contributes. -/
def recordWarmup (r : Record) : Nat :=
  if r.rtype = some "user" then
    match r.message with
    | .dict c => warmupCount (itemsOf c)
    | _ => 0
  else 0

/-- How many tool invocations one record's items contribute under key `k`. -/
def itemsToolCount (k : String) (items : List ContentItem) : Nat :=
  items.countP fun ci =>
    match ci with
    | .nonDict => false
    | .item i => i.itype == some "tool_use" && toolKey i == some k

/-- How many tool invocations one record contributes under key `k`. -/
def recordToolCount (k : String) (r : Record) : Nat :=
  if r.rtype = some "user" then 0
  else if r.rtype = some "assistant" then
    match r.message with
    | .dict c => itemsToolCount k (itemsOf c)
    | _ => 0
  else 0

/-- Warmup-error items contributed by one line (0 for undecodable lines). -/
def lineWarmup : Line → Nat
  | .record r => recordWarmup r
  | _ => 0

/-- Tool invocations under key `k` contributed by one line. -/
def lineTool (k : String) : Line → Nat
  | .record r => recordToolCount k r
  | _ => 0

/-! Concrete fixtures used by claim theorems and witnesses below. -/

/-- A user record whose content list holds `k` warmup-error items. -/
def warmupUserRecord (k : Nat) : Record :=
  { rtype := some "user", isSidechain := false,
    message := .dict (.list (List.replicate k (.item
      { content := some "Warmup", is_error := .bool true, itype := Option.none,
        name := Option.none, input := .absent }))) }

/-- An assistant record with one `tool_use` item whose `input.command` is
the given string. -/
def toolUseRecord (cmd : String) : Record :=
  { rtype := some "assistant", isSidechain := false,
    message := .dict (.list [.item
      { content := Option.none, is_error := PyVal.none, itype := some "tool_use",
        name := Option.none, input := .dict (some cmd) }]) }

/-- An assistant record with one `tool_use` item whose `input` is present
but not a dict (so the item is skipped by the counting loop). -/
def wrongTypedInputRecord : Record :=
  { rtype := some "assistant", isSidechain := false,
    message := .dict (.list [.item
      { content := Option.none, is_error := PyVal.none, itype := some "tool_use",
        name := some "foo", input := .nonDict }]) }

/-- A session file of 51 records invoking a tool whose command is the
literal string "CRITICAL". -/
def criticalCmdFile : SessionFile :=
  { path := "/proj/crit.jsonl", name := "crit.jsonl", statRes := .ok 10,
    readRes := .ok (List.replicate 51 (.record (toolUseRecord "CRITICAL"))) }

/-- An otherwise-empty session file of 2049 KB. -/
def largeFile : SessionFile :=
  { path := "/proj/large.jsonl", name := "large.jsonl",
    statRes := .ok (2049 * 1024), readRes := .ok [] }

/-- An otherwise-empty session file of exactly 2000 KB (2048000 bytes). -/
def exactFile : SessionFile :=
  { path := "/proj/exact.jsonl", name := "exact.jsonl",
    statRes := .ok 2048000, readRes := .ok [] }

/-- The statistics `analyze_session` produces for `largeFile`. -/
def largeStats : Stats :=
  { path := "/proj/large.jsonl", name := "large.jsonl",
    size_kb := sizeKB (2049 * 1024), message_count := 0, warmup_errors := 0,
    tool_calls := [], is_sidechain := false,
    issues := ["WARNING: Large session file (2049KB)"] }

/-- The statistics `analyze_session` produces for `exactFile`. -/
def exactStats : Stats :=
  { path := "/proj/exact.jsonl", name := "exact.jsonl",
    size_kb := sizeKB 2048000, message_count := 0, warmup_errors := 0,
    tool_calls := [], is_sidechain := false, issues := [] }

/-- The run outcome of a human-mode no-fix run over just `largeFile`. -/
def largeRunResult : RunResult :=
  { results := [largeStats], exitCode := 1, deleted := [] }

/-- A healthy (empty, small) session file. -/
def emptyOkFile : SessionFile :=
  { path := "/proj/ok.jsonl", name := "ok.jsonl", statRes := .ok 10,
    readRes := .ok [] }

/-- The statistics `analyze_session` produces for `emptyOkFile`. -/
def emptyOkStats : Stats :=
  { path := "/proj/ok.jsonl", name := "ok.jsonl", size_kb := sizeKB 10,
    message_count := 0, warmup_errors := 0, tool_calls := [],
    is_sidechain := false, issues := [] }

/-- The run outcome of a human-mode no-fix run over just `emptyOkFile`. -/
def emptyOkRunResult : RunResult :=
  { results := [emptyOkStats], exitCode := 0, deleted := [] }

/-- A discovered file that disappeared before analysis: its `stat` call
raises. -/
def vanishedFile : SessionFile :=
  { path := "/proj/gone.jsonl", name := "gone.jsonl",
    statRes := .error "[Errno 2] No such file or directory: /proj/gone.jsonl",
    readRes := .ok [] }

/-- A file whose `stat` succeeds but whose `open` raises (permission
denied). -/
def deniedFile : SessionFile :=
  { path := "/proj/locked.jsonl", name := "locked.jsonl", statRes := .ok 5,
    readRes := .error "[Errno 13] Permission denied: /proj/locked.jsonl" }

/-- A one-line session file whose single user record holds two warmup-error
items. -/
def doubleWarmupFile : SessionFile :=
  { path := "/proj/w.jsonl", name := "w.jsonl", statRes := .ok 10,
    readRes := .ok [.record (warmupUserRecord 2)] }

/-- A one-line session file whose single tool item has a wrong-typed
`input`. -/
def wrongTypedInputFile : SessionFile :=
  { path := "/proj/wt.jsonl", name := "wt.jsonl", statRes := .ok 10,
    readRes := .ok [.record wrongTypedInputRecord] }

/-- A two-line session file, one warmup item and one Bash tool call. -/
def smallMixedFile : SessionFile :=
  { path := "/proj/mix.jsonl", name := "mix.jsonl", statRes := .ok 10,
    readRes := .ok [.record (warmupUserRecord 1), .record (toolUseRecord "Bash")] }

/-- The statistics `analyze_session` produces for `smallMixedFile`. -/
def smallMixedStats : Stats :=
  { path := "/proj/mix.jsonl", name := "mix.jsonl", size_kb := sizeKB 10,
    message_count := 2, warmup_errors := 1, tool_calls := [("Bash", 1)],
    is_sidechain := false, issues := [] }

/-- A tool-use item with absent `input` and a `name`, for the fallback
witness. -/
def namedNoInputItem : Item :=
  { content := Option.none, is_error := PyVal.none, itype := some "tool_use",
    name := some "Bash", input := .absent }

/-- Stats whose counter holds a single tool invoked 51 times and which
trigger no other rule. -/
def oneHotStats : Stats :=
  { path := "/proj/hot.jsonl", name := "hot.jsonl", size_kb := sizeKB 10,
    message_count := 51, warmup_errors := 0, tool_calls := [("Bash", 51)],
    is_sidechain := false, issues := [] }

/-- The content field holding two warmup items with non-boolean truthy
`is_error` values. -/
def twoWarmupContent : ContentField :=
  .list [.item
      { content := some "Warmup", is_error := .str "err", itype := Option.none,
        name := Option.none, input := .absent },
    .item
      { content := some "Warmup", is_error := .int 5, itype := Option.none,
        name := Option.none, input := .absent }]

/-- A user record carrying `twoWarmupContent`. -/
def twoWarmupRecord : Record :=
  { rtype := some "user", isSidechain := false, message := .dict twoWarmupContent }

theorem cnt_incr_self (tc : List (String × Nat)) (k : String) :
    cnt (incr tc k) k = cnt tc k + 1 := by
  induction tc with
  | nil => simp [incr, cnt]
  | cons e rest ih =>
    obtain ⟨n, c⟩ := e
    by_cases h : n = k
    · simp [incr, cnt, h]
    · simp [incr, cnt, h, ih]

theorem cnt_incr_other (tc : List (String × Nat)) (k k' : String) (h : k' ≠ k) :
    cnt (incr tc k') k = cnt tc k := by
  induction tc with
  | nil => simp [incr, cnt, h]
  | cons e rest ih =>
    obtain ⟨n, c⟩ := e
    by_cases hn : n = k'
    · subst hn
      simp [incr, cnt, h]
    · by_cases hk : n = k
      · simp [incr, cnt, hn, hk, Ne.symm h]
      · simp [incr, cnt, hn, hk, ih]

theorem cnt_countTools (items : List ContentItem) :
    ∀ (tc : List (String × Nat)) (k : String),
      cnt (countTools tc items) k = cnt tc k + itemsToolCount k items := by
  induction items with
  | nil => intro tc k; simp [countTools, itemsToolCount]
  | cons ci rest ih =>
    intro tc k
    match ci with
    | .nonDict =>
      simpa [countTools, itemsToolCount, List.countP_cons] using ih tc k
    | .item i =>
      by_cases htype : i.itype == some "tool_use"
      · match hkey : toolKey i with
        | some k0 =>
          by_cases hk : k0 = k
          · subst hk
            simp [countTools, htype, hkey, itemsToolCount, List.countP_cons,
              ih, cnt_incr_self]
            omega
          · simp [countTools, htype, hkey, itemsToolCount, List.countP_cons,
              ih, cnt_incr_other _ _ _ hk, hk]
        | none =>
          simp [countTools, htype, hkey, itemsToolCount, List.countP_cons, ih]
      · simp [countTools, htype, itemsToolCount, List.countP_cons, ih]

theorem processRecord_message_count (st : Stats) (r : Record) :
    (processRecord st r).1.message_count = st.message_count := by
  obtain ⟨t, sc, m⟩ := r
  simp only [processRecord]
  cases sc <;> cases m <;> split <;> simp_all <;> split <;> simp_all

theorem processRecord_warmup (st : Stats) (r : Record) :
    (processRecord st r).1.warmup_errors = st.warmup_errors + recordWarmup r := by
  obtain ⟨t, sc, m⟩ := r
  simp only [processRecord, recordWarmup]
  cases sc <;> cases m <;> split <;> simp_all <;> split <;> simp_all

theorem processRecord_cnt (st : Stats) (r : Record) (k : String) :
    cnt (processRecord st r).1.tool_calls k =
      cnt st.tool_calls k + recordToolCount k r := by
  obtain ⟨t, sc, m⟩ := r
  simp only [processRecord, recordToolCount]
  cases sc <;> cases m <;> split <;> simp_all [cnt_countTools] <;>
    split <;> simp_all [cnt_countTools]

theorem processRecord_msg_irrel (st : Stats) (n : Nat) (r : Record) :
    processRecord { st with message_count := n } r =
      ({ (processRecord st r).1 with message_count := n },
       (processRecord st r).2) := by
  obtain ⟨t, sc, m⟩ := r
  simp only [processRecord]
  cases sc <;> cases m <;> split <;> simp_all <;> split <;> simp_all

theorem processLines_append (l1 l2 : List Line) :
    ∀ st : Stats, (processLines st l1).2 = Option.none →
      processLines st (l1 ++ l2) = processLines (processLines st l1).1 l2 := by
  induction l1 with
  | nil => intro st _; simp [processLines]
  | cons l ls ih =>
    intro st h
    match l with
    | .malformed =>
      simp only [processLines, List.cons_append] at h ⊢
      exact ih _ h
    | .nonObject e => simp [processLines] at h
    | .record r =>
      rcases hpr : processRecord { st with message_count := st.message_count + 1 } r
        with ⟨st2, err⟩
      cases err with
      | none =>
        simp only [processLines, List.cons_append, hpr] at h ⊢
        exact ih _ h
      | some e => simp [processLines, hpr] at h

theorem processLines_msg (lines : List Line) :
    ∀ (st : Stats) (m : Nat),
      processLines { st with message_count := m } lines =
        ({ (processLines { st with message_count := 0 } lines).1 with
            message_count :=
              m + (processLines { st with message_count := 0 } lines).1.message_count },
         (processLines { st with message_count := 0 } lines).2) := by
  induction lines with
  | nil => intro st m; simp [processLines]
  | cons l ls ih =>
    intro st m
    match l with
    | .malformed =>
      simp only [processLines]
      rw [ih st (m + 1), ih st (0 + 1)]
      simp [Stats.mk.injEq, Prod.mk.injEq, Nat.add_assoc, Nat.add_comm, Nat.add_left_comm]
    | .nonObject e =>
      simp only [processLines]
    | .record r =>
      simp only [processLines]
      rw [processRecord_msg_irrel st (m + 1) r, processRecord_msg_irrel st (0 + 1) r]
      rcases hpr : processRecord st r with ⟨st2, err⟩
      cases err with
      | none =>
        simp only
        rw [ih st2 (m + 1), ih st2 (0 + 1)]
        simp [Stats.mk.injEq, Prod.mk.injEq, Nat.add_assoc, Nat.add_comm, Nat.add_left_comm]
      | some e =>
        simp [Stats.mk.injEq, Prod.mk.injEq, Nat.add_comm]

theorem processLines_warmup_le (lines : List Line) :
    ∀ st : Stats, (∀ l ∈ lines, lineWarmup l ≤ 1) →
      (processLines st lines).1.warmup_errors + st.message_count ≤
        (processLines st lines).1.message_count + st.warmup_errors := by
  induction lines with
  | nil => intro st _; simp only [processLines]; omega
  | cons l ls ih =>
    intro st h
    have hl : lineWarmup l ≤ 1 := h l (List.mem_cons_self l ls)
    have hls : ∀ x ∈ ls, lineWarmup x ≤ 1 := fun x hx => h x (List.mem_cons_of_mem _ hx)
    match l with
    | .malformed =>
      have hrec := ih { st with message_count := st.message_count + 1 } hls
      simp only [processLines]
      dsimp only at hrec ⊢
      omega
    | .nonObject e =>
      simp only [processLines]
      omega
    | .record r =>
      rcases hpr : processRecord { st with message_count := st.message_count + 1 } r
        with ⟨st2, err⟩
      have hw := processRecord_warmup { st with message_count := st.message_count + 1 } r
      have hm := processRecord_message_count { st with message_count := st.message_count + 1 } r
      rw [hpr] at hw hm
      have hrw : recordWarmup r ≤ 1 := by simpa [lineWarmup] using hl
      cases err with
      | none =>
        have hrec := ih st2 hls
        simp only [processLines, hpr]
        dsimp only at hw hm ⊢
        omega
      | some e =>
        simp only [processLines, hpr]
        dsimp only at hw hm ⊢
        omega

theorem processLines_cnt_le (lines : List Line) (k : String) :
    ∀ st : Stats, (∀ l ∈ lines, lineTool k l ≤ 1) →
      cnt (processLines st lines).1.tool_calls k + st.message_count ≤
        (processLines st lines).1.message_count + cnt st.tool_calls k := by
  induction lines with
  | nil => intro st _; simp only [processLines]; omega
  | cons l ls ih =>
    intro st h
    have hl : lineTool k l ≤ 1 := h l (List.mem_cons_self l ls)
    have hls : ∀ x ∈ ls, lineTool k x ≤ 1 := fun x hx => h x (List.mem_cons_of_mem _ hx)
    match l with
    | .malformed =>
      have hrec := ih { st with message_count := st.message_count + 1 } hls
      simp only [processLines]
      dsimp only at hrec ⊢
      omega
    | .nonObject e =>
      simp only [processLines]
      omega
    | .record r =>
      rcases hpr : processRecord { st with message_count := st.message_count + 1 } r
        with ⟨st2, err⟩
      have hw := processRecord_cnt { st with message_count := st.message_count + 1 } r k
      have hm := processRecord_message_count { st with message_count := st.message_count + 1 } r
      rw [hpr] at hw hm
      have hrt : recordToolCount k r ≤ 1 := by simpa [lineTool] using hl
      cases err with
      | none =>
        have hrec := ih st2 hls
        simp only [processLines, hpr]
        dsimp only at hw hm ⊢
        omega
      | some e =>
        simp only [processLines, hpr]
        dsimp only at hw hm ⊢
        omega

/-! Lemmas about the stable descending sort behind `most_common`. -/

theorem mem_insertDesc (a : String × Nat) (l : List (String × Nat)) (x : String × Nat) :
    x ∈ insertDesc a l → x = a ∨ x ∈ l := by
  induction l with
  | nil => intro h; simpa [insertDesc] using h
  | cons y ys ih =>
    intro h
    simp only [insertDesc] at h
    split at h
    · rcases List.mem_cons.mp h with h | h
      · exact Or.inr (by simp [h])
      · rcases ih h with h | h
        · exact Or.inl h
        · exact Or.inr (List.mem_cons_of_mem _ h)
    · rcases List.mem_cons.mp h with h | h
      · exact Or.inl h
      · exact Or.inr h

theorem sortDesc_mem (l : List (String × Nat)) (x : String × Nat) :
    x ∈ sortDesc l → x ∈ l := by
  induction l with
  | nil => simp [sortDesc]
  | cons y ys ih =>
    intro h
    rcases mem_insertDesc y (sortDesc ys) x h with h | h
    · simp [h]
    · exact List.mem_cons_of_mem _ (ih h)

theorem insertDesc_top (a : String × Nat) (l : List (String × Nat))
    (h : ∀ y ∈ l, y.2 < a.2) : insertDesc a l = a :: l := by
  cases l with
  | nil => rfl
  | cons y ys =>
    have hy : ¬ a.2 < y.2 := by
      have := h y (List.mem_cons_self y ys)
      omega
    simp [insertDesc, hy]

theorem sortDesc_strict_max (a : String × Nat) :
    ∀ l1 l2 : List (String × Nat), (∀ y ∈ l1 ++ l2, y.2 < a.2) →
      sortDesc (l1 ++ a :: l2) = a :: sortDesc (l1 ++ l2) := by
  intro l1
  induction l1 with
  | nil =>
    intro l2 h
    simp only [List.nil_append, sortDesc]
    exact insertDesc_top a (sortDesc l2) fun y hy => h y (sortDesc_mem l2 y hy)
  | cons b l1' ih =>
    intro l2 h
    have hb : b.2 < a.2 := h b (by simp)
    have h' : ∀ y ∈ l1' ++ l2, y.2 < a.2 := fun y hy => h y (by
      rcases List.mem_append.mp hy with hy | hy
      · exact List.mem_append.mpr (Or.inl (List.mem_cons_of_mem _ hy))
      · exact List.mem_append.mpr (Or.inr hy))
    rw [List.cons_append, List.cons_append]
    show insertDesc b (sortDesc (l1' ++ a :: l2)) = a :: sortDesc (b :: (l1' ++ l2))
    rw [ih l2 h']
    show insertDesc b (a :: sortDesc (l1' ++ l2)) = a :: insertDesc b (sortDesc (l1' ++ l2))
    simp only [insertDesc, if_pos hb]

theorem filterMap_cmd_none (l : List (String × Nat)) (h : ∀ e ∈ l, e.2 ≤ 50) :
    (l.filterMap fun e =>
      if e.2 > 50 then some (commandRepeatedIssue e.2 e.1) else Option.none) = [] := by
  induction l with
  | nil => rfl
  | cons e rest ih =>
    have he : ¬ e.2 > 50 := by
      have := h e (List.mem_cons_self e rest)
      omega
    simp only [List.filterMap_cons, if_neg he]
    exact ih fun x hx => h x (List.mem_cons_of_mem _ hx)

theorem commandIssues_unique_max (s : Stats) (nm : String)
    (l1 l2 : List (String × Nat))
    (htc : s.tool_calls = l1 ++ (nm, 51) :: l2)
    (hothers : ∀ e ∈ l1 ++ l2, e.2 ≤ 50) :
    commandIssues s = [commandRepeatedIssue 51 nm] := by
  have hlt : ∀ y ∈ l1 ++ l2, y.2 < (nm, 51).2 := by
    intro y hy
    have := hothers y hy
    simp only
    omega
  have h4 : ∀ e ∈ (sortDesc (l1 ++ l2)).take 4, e.2 ≤ 50 := fun e he =>
    hothers e (sortDesc_mem _ e (List.take_subset _ _ he))
  unfold commandIssues mostCommon
  rw [htc, sortDesc_strict_max (nm, 51) l1 l2 hlt, List.take_succ_cons,
    List.filterMap_cons]
  simp only [if_pos (by decide : (51 : Nat) > 50)]
  rw [filterMap_cmd_none _ h4]

theorem sizeKB_gt_iff (size : Nat) : sizeKB size > 2000 ↔ 2048000 < size := by
  unfold sizeKB
  rw [Rat.divInt_eq_div, gt_iff_lt, lt_div_iff₀ (by norm_num)]
  norm_num

/-! The claims. -/

/-- C1: The claim that a problematic file with no CRITICAL issue is never
deleted under `--fix` is contradicted by the code: line 153 selects files
for deletion with the substring test `"CRITICAL" in issue`, so a session
file whose only issue is the WARNING citing a tool command literally named
"CRITICAL" (repeated 51 times) is passed to `os.remove` even though its
issue list holds no CRITICAL-severity issue. -/
theorem c1_fix_deletes_warning_only_file :
    (analyze_session criticalCmdFile).map Stats.issues =
      .ok ["WARNING: Command repeated 51x: CRITICAL..."] ∧
    (main true true false [criticalCmdFile]).map RunResult.deleted =
      .ok ["/proj/crit.jsonl"] := by
  constructor
  · decide
  · decide

/-- C2 (counterexample): in `--json` mode `main` returns `None` right after
printing, so `sys.exit` receives `None` and the process exits 0 even though
one problematic file was found. -/
theorem c2_json_mode_exit_zero_counterexample :
    (main true false true [largeFile]).map
      (fun r => (r.exitCode, (r.results.filter fun s => !s.issues.isEmpty).length)) =
      .ok (0, 1) := by
  decide

/-- C2 (amended): in the human-readable reporter mode, a run over an
existing root path that completes exits with status equal to the number of
problematic files; in `--json` mode the exit status is always 0. -/
theorem c2_human_mode_exit_counts_problematic
    (fix : Bool) (files : List SessionFile) (r : RunResult)
    (h : main true fix false files = .ok r) :
    r.exitCode = (r.results.filter fun s => !s.issues.isEmpty).length := by
  unfold main at h
  rcases hm : List.mapM analyze_session files with e | results <;> rw [hm] at h
  · simp at h
  · simp only [Bool.not_true, Bool.false_eq_true, if_false, Except.ok.injEq] at h
    subst h
    rfl


/-- C2 (amended, witness). -/
theorem c2_human_mode_exit_counts_problematic_witness :
    main true false false [largeFile] = .ok largeRunResult ∧
    largeRunResult.exitCode =
      (largeRunResult.results.filter fun s => !s.issues.isEmpty).length :=
  ⟨by decide,
   c2_human_mode_exit_counts_problematic false [largeFile] largeRunResult (by decide)⟩

/-- C4: The claim that a file that disappears between discovery and
analysis is recovered is contradicted by the code: `jsonl_path.stat()` on
line 29 sits outside the `try` block, so its exception aborts the whole run
(no statistics for any file, later files unscanned).  The open-failure half
of the claim does hold: a file whose `open` raises gets zero counts and a
single synthetic read-error issue. -/
theorem c4_vanished_file_aborts_run :
    main true false false [emptyOkFile, vanishedFile, largeFile] =
      .error "[Errno 2] No such file or directory: /proj/gone.jsonl" ∧
    (analyze_session deniedFile).map
      (fun s => (s.message_count, s.warmup_errors, s.tool_calls,
        s.is_sidechain, s.issues)) =
      .ok (0, 0, [], false,
        ["Error reading file: [Errno 13] Permission denied: /proj/locked.jsonl"]) := by
  constructor
  · decide
  · decide

/-- C5 (counterexample): a `tool_use` item whose `input` is present but not
a mapping fails the `isinstance(tool_input, dict)` check and is skipped
entirely, so it contributes no count at all — not a count under its `name`
"foo" as the claim states. -/
theorem c5_wrong_typed_input_counterexample :
    (analyze_session wrongTypedInputFile).map
      (fun s => (s.tool_calls, cnt s.tool_calls "foo")) = .ok ([], 0) := by
  decide

/-- C5 (amended): for a `tool_use` item, an absent `input` falls back to
the item's `name` (else "unknown"), and a present `command` wins; but an
`input` of the wrong type causes the item to be skipped, contributing no
count. -/
theorem c5_tool_name_selection (i : Item) (tc : List (String × Nat))
    (h : i.itype = some "tool_use") :
    countTools tc [ContentItem.item i] =
      match i.input with
      | .nonDict => tc
      | .absent => incr tc (i.name.getD "unknown")
      | .dict command => incr tc (command.getD (i.name.getD "unknown")) := by
  cases hin : i.input <;> simp [countTools, toolKey, h, hin]

/-- C5 (amended, witness): absent input falls back to the name "Bash". -/
theorem c5_tool_name_selection_witness :
    countTools [] [ContentItem.item namedNoInputItem] =
      incr [] (namedNoInputItem.name.getD "unknown") ∧
    countTools [] [ContentItem.item namedNoInputItem] = [("Bash", 1)] :=
  ⟨c5_tool_name_selection namedNoInputItem [] rfl, by decide⟩

/-- C3 (counterexample): warmup errors are counted once per matching content
item, not per record, so a one-line file whose single user record holds two
warmup items has `message_count = 1` but `warmup_errors = 2`, refuting the
claimed bound `message_count ≥ warmup_errors`. -/
theorem c3_per_item_counting_counterexample :
    (analyze_session doubleWarmupFile).map
      (fun s => (s.message_count, s.warmup_errors,
        decide (s.warmup_errors ≤ s.message_count))) = .ok (1, 2, false) := by
  decide

/-- C3 (amended): for a session file in which every line contributes at most
one warmup-error item, and (for a given tool name) at most one counted
`tool_use` item, the total record count bounds the warmup-error count and
that tool's invocation count. -/
theorem c3_counts_bounded_for_single_item_records
    (f : SessionFile) (lines : List Line) (s : Stats) (k : String)
    (hread : f.readRes = .ok lines)
    (hw : ∀ l ∈ lines, lineWarmup l ≤ 1)
    (ht : ∀ l ∈ lines, lineTool k l ≤ 1)
    (hs : analyze_session f = .ok s) :
    s.warmup_errors ≤ s.message_count ∧ cnt s.tool_calls k ≤ s.message_count := by
  unfold analyze_session at hs
  rcases hstat : f.statRes with e | size <;> rw [hstat] at hs
  · simp at hs
  · rw [hread] at hs
    dsimp only at hs
    rcases hpl : processLines
        { path := f.path, name := f.name, size_kb := sizeKB size,
          message_count := 0, warmup_errors := 0, tool_calls := [],
          is_sidechain := false, issues := [] } lines with ⟨st, err⟩
    have h1 := processLines_warmup_le lines
      { path := f.path, name := f.name, size_kb := sizeKB size,
        message_count := 0, warmup_errors := 0, tool_calls := [],
        is_sidechain := false, issues := [] } hw
    have h2 := processLines_cnt_le lines k
      { path := f.path, name := f.name, size_kb := sizeKB size,
        message_count := 0, warmup_errors := 0, tool_calls := [],
        is_sidechain := false, issues := [] } ht
    rw [hpl] at hs h1 h2
    dsimp only at h1 h2
    simp only [cnt] at h2
    cases err with
    | none =>
      simp only [Except.ok.injEq] at hs
      subst hs
      constructor <;> dsimp only <;> omega
    | some e =>
      simp only [Except.ok.injEq] at hs
      subst hs
      constructor <;> dsimp only <;> omega

/-- C3 (amended, witness). -/
theorem c3_counts_bounded_for_single_item_records_witness :
    analyze_session smallMixedFile = .ok smallMixedStats ∧
    smallMixedStats.warmup_errors ≤ smallMixedStats.message_count ∧
    cnt smallMixedStats.tool_calls "Bash" ≤ smallMixedStats.message_count :=
  ⟨by decide,
   c3_counts_bounded_for_single_item_records smallMixedFile
     [.record (warmupUserRecord 1), .record (toolUseRecord "Bash")]
     smallMixedStats "Bash" rfl (by decide) (by decide) (by decide)⟩

/-- C6: a line that fails to decode (a JSON syntax error) increments the
total record count — the counter is bumped before the parse attempt — and
contributes to nothing else: as long as the preceding lines process without
an escaping exception, inserting the malformed line yields exactly the same
statistics and loop outcome as the same file without it, except that the
total record count is one higher. -/
theorem c6_malformed_line_counts_only_total (st : Stats) (l1 l2 : List Line)
    (h : (processLines st l1).2 = Option.none) :
    processLines st (l1 ++ Line.malformed :: l2) =
      ({ (processLines st (l1 ++ l2)).1 with
          message_count := (processLines st (l1 ++ l2)).1.message_count + 1 },
       (processLines st (l1 ++ l2)).2) := by
  rw [processLines_append l1 (Line.malformed :: l2) st h,
    processLines_append l1 l2 st h]
  simp only [processLines]
  rw [processLines_msg l2 (processLines st l1).1
    ((processLines st l1).1.message_count + 1)]
  have e2 : processLines (processLines st l1).1 l2 =
      ({ (processLines
            { (processLines st l1).1 with message_count := 0 } l2).1 with
          message_count :=
            (processLines st l1).1.message_count +
              (processLines
                { (processLines st l1).1 with message_count := 0 } l2).1.message_count },
       (processLines
          { (processLines st l1).1 with message_count := 0 } l2).2) :=
    processLines_msg l2 (processLines st l1).1 (processLines st l1).1.message_count
  rw [e2]
  simp [Stats.mk.injEq, Prod.mk.injEq, Nat.add_assoc, Nat.add_comm, Nat.add_left_comm]

/-- C6 (witness). -/
theorem c6_malformed_line_counts_only_total_witness :
    processLines emptyOkStats
        ([.record (warmupUserRecord 1)] ++ Line.malformed :: [.record (toolUseRecord "Bash")]) =
      ({ (processLines emptyOkStats
            ([.record (warmupUserRecord 1)] ++ [.record (toolUseRecord "Bash")])).1 with
          message_count :=
            (processLines emptyOkStats
              ([.record (warmupUserRecord 1)] ++ [.record (toolUseRecord "Bash")])).1.message_count + 1 },
       (processLines emptyOkStats
          ([.record (warmupUserRecord 1)] ++ [.record (toolUseRecord "Bash")])).2) :=
  c6_malformed_line_counts_only_total emptyOkStats
    [.record (warmupUserRecord 1)] [.record (toolUseRecord "Bash")] (by decide)

/-- C7: if exactly one tool name reaches a count of 51 and every other
entry stays at or below 50, and no other rule fires, the classifier emits
exactly one repeated-command WARNING citing that name and the count 51; and
in general every repeated-command WARNING cites an entry of
`most_common(5)` whose count strictly exceeds 50. -/
theorem c7_command_warning_top5 :
    (∀ (s : Stats) (nm : String) (l1 l2 : List (String × Nat)),
        s.tool_calls = l1 ++ (nm, 51) :: l2 →
        (∀ e ∈ l1 ++ l2, e.2 ≤ 50) →
        s.warmup_errors ≤ 10 → s.message_count ≤ 500 → ¬s.size_kb > 2000 →
        detectIssues s = [commandRepeatedIssue 51 nm]) ∧
    (∀ (s : Stats) (w : String), w ∈ commandIssues s →
        ∃ e ∈ mostCommon 5 s.tool_calls, e.2 > 50 ∧ w = commandRepeatedIssue e.2 e.1) := by
  constructor
  · intro s nm l1 l2 htc hothers hwu hmc hsz
    unfold detectIssues warmupIssues messageIssues sizeIssues
    rw [if_neg (by omega), if_neg (by omega), if_neg hsz,
      commandIssues_unique_max s nm l1 l2 htc hothers]
    simp
  · intro s w hw
    unfold commandIssues at hw
    rcases List.mem_filterMap.mp hw with ⟨e, he, hfe⟩
    by_cases hgt : e.2 > 50
    · rw [if_pos hgt] at hfe
      injection hfe with hfe
      exact ⟨e, he, hgt, hfe.symm⟩
    · rw [if_neg hgt] at hfe
      cases hfe

/-- C7 (witness): one tool at 51, nothing else firing. -/
theorem c7_command_warning_top5_witness :
    detectIssues oneHotStats = [commandRepeatedIssue 51 "Bash"] ∧
    detectIssues oneHotStats = ["WARNING: Command repeated 51x: Bash..."] :=
  ⟨c7_command_warning_top5.1 oneHotStats "Bash" [] [] rfl (by simp)
      (by decide) (by decide) (by decide),
   by decide⟩

/-- C8: the size rule is strict: an otherwise-empty file gets exactly one
size WARNING (citing the size rounded half-to-even to whole kilobytes) iff
its byte size strictly exceeds 2048000 = 2000 × 1024; in particular an
otherwise-empty 2049 KB file gets exactly the one size WARNING and an
exactly-2000 KB file gets none. -/
theorem c8_size_threshold_strict (f : SessionFile) (size : Nat) (s : Stats)
    (hstat : f.statRes = .ok size) (hread : f.readRes = .ok [])
    (hs : analyze_session f = .ok s) :
    s.issues = if 2048000 < size then [largeFileIssue (sizeKB size)] else [] := by
  unfold analyze_session at hs
  rw [hstat, hread] at hs
  simp only [processLines, Except.ok.injEq] at hs
  subst hs
  dsimp only
  rw [List.nil_append]
  unfold detectIssues warmupIssues messageIssues commandIssues sizeIssues
  dsimp only
  rw [if_neg (by decide), if_neg (by decide)]
  simp only [mostCommon, sortDesc, List.take_nil, List.filterMap_nil,
    List.nil_append]
  by_cases hsz : 2048000 < size
  · rw [if_pos ((sizeKB_gt_iff size).mpr hsz), if_pos hsz]
  · rw [if_neg (fun hgt => hsz ((sizeKB_gt_iff size).mp hgt)), if_neg hsz]

/-- C8 (witness): the two boundary files. -/
theorem c8_size_threshold_strict_witness :
    (largeStats.issues =
      if 2048000 < 2049 * 1024 then [largeFileIssue (sizeKB (2049 * 1024))] else []) ∧
    (exactStats.issues =
      if 2048000 < 2048000 then [largeFileIssue (sizeKB 2048000)] else []) ∧
    largeStats.issues = ["WARNING: Large session file (2049KB)"] ∧
    exactStats.issues = [] :=
  ⟨c8_size_threshold_strict largeFile (2049 * 1024) largeStats rfl rfl (by decide),
   c8_size_threshold_strict exactFile 2048000 exactStats rfl rfl (by decide),
   by decide, by decide⟩

/-- C9: a run without `--fix` never calls `os.remove` (the cleanup block is
guarded by the flag, and nothing else mutates the filesystem), and the
statistics of a completed run are a deterministic function of the scanned
files' contents and sizes, so two runs over unchanged files agree. -/
theorem c9_no_fix_runs_are_pure :
    (∀ (pathExists jsonMode : Bool) (files : List SessionFile) (r : RunResult),
        main pathExists false jsonMode files = .ok r → r.deleted = []) ∧
    (∀ (pathExists jsonMode : Bool) (files : List SessionFile) (r1 r2 : RunResult),
        main pathExists false jsonMode files = .ok r1 →
        main pathExists false jsonMode files = .ok r2 → r1 = r2) := by
  constructor
  · intro pe jm files r h
    unfold main at h
    split at h
    · simp only [Except.ok.injEq] at h
      subst h
      rfl
    · rcases hm : List.mapM analyze_session files with e | results <;> rw [hm] at h
      · simp at h
      · dsimp only at h
        split at h <;> simp only [Except.ok.injEq] at h <;> subst h <;> rfl
  · intro pe jm files r1 r2 h1 h2
    rw [h1] at h2
    injection h2

/-- C9 (witness). -/
theorem c9_no_fix_runs_are_pure_witness :
    main true false false [emptyOkFile] = .ok emptyOkRunResult ∧
    emptyOkRunResult.deleted = [] ∧ emptyOkRunResult = emptyOkRunResult :=
  ⟨by decide,
   c9_no_fix_runs_are_pure.1 true false [emptyOkFile] emptyOkRunResult (by decide),
   c9_no_fix_runs_are_pure.2 true false [emptyOkFile] emptyOkRunResult
     emptyOkRunResult (by decide) (by decide)⟩

/-- C10: a content item is counted as a warmup error iff it sits in a
record whose `type` is exactly "user", its `content` equals the string
"Warmup", and its `is_error` is Python-truthy (any truthy value — a
non-empty string or a nonzero integer — qualifies like `True` does); a
user record contributes once per matching item, so `k` matching items add
`k`. -/
theorem c10_warmup_error_criteria :
    (∀ (st : Stats) (r : Record) (c : ContentField),
        r.rtype = some "user" → r.message = .dict c →
        (processRecord st r).1.warmup_errors =
          st.warmup_errors + warmupCount (itemsOf c)) ∧
    (∀ (st : Stats) (r : Record), r.rtype ≠ some "user" →
        (processRecord st r).1.warmup_errors = st.warmup_errors) ∧
    (∀ i : Item, isWarmupItem i = (i.content == some "Warmup" && i.is_error.truthy)) ∧
    PyVal.truthy (.bool true) = true ∧ PyVal.truthy (.bool false) = false ∧
    PyVal.truthy .none = false ∧
    (∀ s : String, PyVal.truthy (.str s) = !(s == "")) ∧
    (∀ n : Int, PyVal.truthy (.int n) = !(n == 0)) := by
  refine ⟨?_, ?_, fun i => rfl, rfl, rfl, rfl, fun s => rfl, fun n => rfl⟩
  · intro st r c h1 h2
    rw [processRecord_warmup st r]
    congr 1
    simp [recordWarmup, h1, h2]
  · intro st r h
    rw [processRecord_warmup st r]
    simp [recordWarmup, h]

/-- C10 (witness): two matching items with non-boolean truthy error flags
contribute two warmup errors in one record. -/
theorem c10_warmup_error_criteria_witness :
    (processRecord emptyOkStats twoWarmupRecord).1.warmup_errors =
      emptyOkStats.warmup_errors + warmupCount (itemsOf twoWarmupContent) ∧
    (processRecord emptyOkStats twoWarmupRecord).1.warmup_errors = 2 :=
  ⟨c10_warmup_error_criteria.1 emptyOkStats twoWarmupRecord twoWarmupContent rfl rfl,
   by decide⟩

end SessionHealth
